import Mathlib

/-!
Shallow embedding of `src/main.py` (AI Code Review Assistant).

The program is a FastAPI service with one endpoint, `review_code_endpoint`,
and one pure helper, `create_review_prompt`.  The embedding below models the
Python string primitives the code uses (`str.strip`, `str.replace`), the
`json.loads` parser of the standard library, the exception flow of the
handler's `try/except` blocks, and the handler itself.
-/

namespace CodeReview

/-- Models Python's `str.isspace` character test, which determines the
characters removed by `str.strip()` with no arguments. -/
def isPySpace (c : Char) : Bool :=
  c == ' ' || c == '\t' || c == '\n' || c == '\r' || c == '\x0b' || c == '\x0c' ||
  c == '\x1c' || c == '\x1d' || c == '\x1e' || c == '\x1f' || c == '\x85' || c == '\xa0' ||
  c == '\u1680' || ('\u2000' ≤ c && c ≤ '\u200A') || c == '\u2028' || c == '\u2029' ||
  c == '\u202F' || c == '\u205F' || c == '\u3000'

/-- Drop leading whitespace, as Python's `str.lstrip()`. -/
def lstripL (l : List Char) : List Char := l.dropWhile isPySpace

/-- Drop trailing whitespace, as Python's `str.rstrip()`. -/
def rstripL (l : List Char) : List Char := (l.reverse.dropWhile isPySpace).reverse

/-- Drop surrounding whitespace, as Python's `str.strip()`. -/
def stripL (l : List Char) : List Char := rstripL (lstripL l)

/-- Models Python's `str.strip()` on `String`. -/
def pyStrip (s : String) : String := ⟨stripL s.data⟩

/-- Fuel-indexed worker for `replaceL`.  Each step consumes at least one
character of the input, so fuel equal to the input length always suffices;
the fuel only serves to make the recursion structural. -/
def replaceFuel (pat rep : List Char) : Nat → List Char → List Char
  | _, [] => []
  | 0, l => l
  | fuel + 1, c :: cs =>
    if !pat.isEmpty && pat.isPrefixOf (c :: cs) then
      rep ++ replaceFuel pat rep fuel ((c :: cs).drop pat.length)
    else
      c :: replaceFuel pat rep fuel cs

/-- Models Python's `str.replace(pat, rep)` on character lists: replaces every
non-overlapping occurrence of `pat`, scanning left to right.  (The Python
code only ever calls it with non-empty patterns; for an empty pattern this
model leaves the list unchanged.) -/
def replaceL (pat rep l : List Char) : List Char := replaceFuel pat rep l.length l

/-- Models Python's `str.replace` on `String`. -/
def pyReplace (s pat rep : String) : String := ⟨replaceL pat.data rep.data s.data⟩

/-- Boolean contiguous-substring test: `containsB small big` is true iff
`small` occurs as a contiguous run inside `big`. -/
def containsB (small : List Char) : List Char → Bool
  | [] => small.isEmpty
  | c :: cs => small.isPrefixOf (c :: cs) || containsB small cs

/-- The constant part of the f-string of `create_review_prompt`
(src/main.py lines 63-88) before the `\x7bfilename\x7d` interpolation. -/
def promptPre : String :=
  "\n    You are an expert code reviewer named \"CodeSage\". Your task is to provide a detailed, constructive, and actionable review for the provided code.\n\n    **Context:**\n    - **File Name:** `"

/-- The constant part of the f-string between the `\x7bfilename\x7d` and
`\x7bcode\x7d` interpolations. -/
def promptMid : String :=
  "`\n\n    **Instructions:**\n    Analyze the following code based on these five criteria:\n    1.  **Readability**: Is the code clean, well-commented, and easy to understand? Is the naming convention clear?\n    2.  **Modularity_Structure**: Is the code well-organized into functions or classes? Is there good separation of concerns?\n    3.  **Potential_Bugs**: Are there any logical errors, unhandled edge cases, or common programming mistakes?\n    4.  **Best_Practices**: Does the code adhere to standard conventions and idiomatic principles for its language?\n    5.  **Security**: Are there any obvious security vulnerabilities (e.g., hardcoded secrets, injection risks, unsafe functions)?\n\n    **Output Format:**\n    Your entire response MUST be a single, minified JSON object. Do not include any markdown formatting (like ```json), explanations, or conversational text outside of the JSON structure.\n\n    The root object must have keys for each of the five criteria (use underscores, e.g., \"Potential_Bugs\"). For each criterion, the value should be an object containing:\n    - \"rating\": An integer rating from 1 (poor) to 10 (excellent).\n    - \"comment\": A concise string (2-3 sentences) with detailed feedback. If you find issues, reference line numbers where applicable.\n\n    **Code to Review:**\n    ```\n    "

/-- The constant tail of the f-string after the `\x7bcode\x7d` interpolation. -/
def promptSuf : String :=
  "\n    ```\n    "

/-- Embedding of `create_review_prompt(code, filename)` (src/main.py
lines 48-88): the Python f-string is the concatenation of its constant
chunks and the two interpolated arguments. -/
def create_review_prompt (code : String) (filename : String) : String :=
  promptPre ++ filename ++ promptMid ++ code ++ promptSuf

/-- Embedding of the response-cleaning expression of src/main.py line 121:
`response.text.strip().replace("```json", "").replace("```", "").strip()`. -/
def clean_response (raw : String) : String :=
  pyStrip (pyReplace (pyReplace (pyStrip raw) "```json" "") "```" "")

/-- JSON values as produced by Python's `json.loads`.  Integer literals
become Python ints (`int`); literals with a fraction or exponent, and the
non-standard constants `NaN`/`Infinity`/`-Infinity`, become Python floats,
kept here as the literal characters (`float`).  Objects keep their
key-value pairs in parse order (Python's `dict` would keep the last
binding of a duplicated key; no claim involves duplicate keys). -/
inductive Json where
  | null
  | bool (b : Bool)
  | int (n : Int)
  | float (raw : List Char)
  | str (s : List Char)
  | arr (xs : List Json)
  | obj (kvs : List (List Char × Json))

/-- JSON whitespace skipped by Python's `json` scanner: space, tab,
newline, carriage return. -/
def isJsonWs (c : Char) : Bool := c == ' ' || c == '\t' || c == '\n' || c == '\r'

/-- Skip JSON whitespace. -/
def skipWs (l : List Char) : List Char := l.dropWhile isJsonWs

/-- Value of a hexadecimal digit (code points 48-57 are `0`-`9`,
97-102 are `a`-`f`, 65-70 are `A`-`F`). -/
def hexDigit (c : Char) : Option Nat :=
  let n := c.toNat
  if 48 ≤ n && n ≤ 57 then some (n - 48)
  else if 97 ≤ n && n ≤ 102 then some (n - 87)
  else if 65 ≤ n && n ≤ 70 then some (n - 55)
  else none

/-- Translation of a backslash escape in a JSON string. -/
def escChar (e : Char) : Option Char :=
  if e == '"' then some '"'
  else if e == '\\' then some '\\'
  else if e == '/' then some '/'
  else if e == 'b' then some '\x08'
  else if e == 'f' then some '\x0c'
  else if e == 'n' then some '\n'
  else if e == 'r' then some '\r'
  else if e == 't' then some '\t'
  else none

/-- Parse the body of a JSON string after the opening quote, in the strict
mode `json.loads` uses: unescaped control characters are rejected.  (The
`\uXXXX` escape is mapped through `Char.ofNat`; surrogate-pair recombination
is not modelled — no claim involves `\u` escapes.)  Returns the decoded
characters and the input after the closing quote. -/
def parseStrBody : List Char → Option (List Char × List Char)
  | [] => none
  | '"' :: rest => some ([], rest)
  | '\\' :: 'u' :: a :: b :: c :: d :: rest =>
    match hexDigit a, hexDigit b, hexDigit c, hexDigit d with
    | some x, some y, some z, some w =>
      match parseStrBody rest with
      | some (s, r) => some (Char.ofNat (((x * 16 + y) * 16 + z) * 16 + w) :: s, r)
      | none => none
    | _, _, _, _ => none
  | '\\' :: e :: rest =>
    match escChar e with
    | some c =>
      match parseStrBody rest with
      | some (s, r) => some (c :: s, r)
      | none => none
    | none => none
  | c :: rest =>
    if c.toNat < 0x20 then none
    else
      match parseStrBody rest with
      | some (s, r) => some (c :: s, r)
      | none => none

/-- Is `c` a decimal digit? -/
def isDigit (c : Char) : Bool := 47 < c.toNat && c.toNat < 58

/-- Split the longest run of leading decimal digits from the input. -/
def takeDigits : List Char → (List Char × List Char)
  | [] => ([], [])
  | c :: cs =>
    if isDigit c then
      let p := takeDigits cs
      (c :: p.1, p.2)
    else ([], c :: cs)

/-- Numeric value of a run of decimal digits. -/
def natOfDigits (l : List Char) : Nat :=
  l.foldl (fun acc c => acc * 10 + (c.toNat - '0'.toNat)) 0

/-- Optional fraction part of a JSON number (regex group `(\.\d+)?`):
a dot followed by at least one digit, else absent. -/
def parseFrac (l : List Char) : Option (List Char × List Char) :=
  match l with
  | '.' :: r =>
    match takeDigits r with
    | ([], _) => none
    | (ds, rest) => some ('.' :: ds, rest)
  | _ => none

/-- Optional exponent part of a JSON number (regex group
`([eE][-+]?\d+)?`). -/
def parseExp (l : List Char) : Option (List Char × List Char) :=
  match l with
  | e :: r =>
    if e == 'e' || e == 'E' then
      let p := match r with
        | '+' :: rr => (['+'], rr)
        | '-' :: rr => (['-'], rr)
        | _ => (([] : List Char), r)
      match takeDigits p.2 with
      | ([], _) => none
      | (ds, rest) => some (e :: (p.1 ++ ds), rest)
    else none
  | [] => none

/-- Assemble a parsed number from its integer part plus the optional
fraction and exponent: an `int` when both are absent, a `float` otherwise,
matching Python's `json` number handling. -/
def mkNumber (neg : Bool) (ip : Nat) (raw : List Char) (l : List Char) : Json × List Char :=
  let signRaw := if neg then '-' :: raw else raw
  match parseFrac l with
  | some (fr, l1) =>
    match parseExp l1 with
    | some (ex, l2) => (Json.float (signRaw ++ fr ++ ex), l2)
    | none => (Json.float (signRaw ++ fr), l1)
  | none =>
    match parseExp l with
    | some (ex, l1) => (Json.float (signRaw ++ ex), l1)
    | none => (Json.int (if neg then -(ip : Int) else (ip : Int)), l)

/-- Parse a JSON number at the head of the input, per the `json` module's
regex `(-?(?:0|[1-9]\d*))(\.\d+)?([eE][-+]?\d+)?`: no leading zeros. -/
def parseNumber (l : List Char) : Option (Json × List Char) :=
  let p : Bool × List Char := match l with
    | '-' :: r => (true, r)
    | _ => (false, l)
  match p.2 with
  | [] => none
  | c :: cs =>
    if c == '0' then some (mkNumber p.1 0 ['0'] cs)
    else if isDigit c then
      let q := takeDigits cs
      some (mkNumber p.1 (natOfDigits (c :: q.1)) (c :: q.1) q.2)
    else none

mutual

/-- Models the value scanner of Python's `json.loads` (fuel-indexed; the
fuel passed by `json_loads` always suffices). -/
def parseValue : Nat → List Char → Option (Json × List Char)
  | 0, _ => none
  | _ + 1, [] => none
  | fuel + 1, c :: rest =>
    if c == '\x7b' then parseObjBody fuel (skipWs rest)
    else if c == '[' then parseArrBody fuel (skipWs rest)
    else if c == '"' then
      match parseStrBody rest with
      | some (s, r) => some (Json.str s, r)
      | none => none
    else
      match c :: rest with
      | 't' :: 'r' :: 'u' :: 'e' :: r => some (Json.bool true, r)
      | 'f' :: 'a' :: 'l' :: 's' :: 'e' :: r => some (Json.bool false, r)
      | 'n' :: 'u' :: 'l' :: 'l' :: r => some (Json.null, r)
      | 'N' :: 'a' :: 'N' :: r => some (Json.float ['N', 'a', 'N'], r)
      | 'I' :: 'n' :: 'f' :: 'i' :: 'n' :: 'i' :: 't' :: 'y' :: r =>
        some (Json.float "Infinity".data, r)
      | '-' :: 'I' :: 'n' :: 'f' :: 'i' :: 'n' :: 'i' :: 't' :: 'y' :: r =>
        some (Json.float "-Infinity".data, r)
      | l => parseNumber l

/-- Parse an object after the opening brace (whitespace already skipped). -/
def parseObjBody : Nat → List Char → Option (Json × List Char)
  | 0, _ => none
  | fuel + 1, l =>
    match l with
    | '\x7d' :: r => some (Json.obj [], r)
    | _ =>
      match parseMembers fuel l with
      | some (kvs, r) => some (Json.obj kvs, r)
      | none => none

/-- Parse the non-empty member list of an object, starting at a key. -/
def parseMembers : Nat → List Char → Option (List (List Char × Json) × List Char)
  | 0, _ => none
  | fuel + 1, l =>
    match l with
    | '"' :: r0 =>
      match parseStrBody r0 with
      | some (k, r1) =>
        match skipWs r1 with
        | ':' :: r2 =>
          match parseValue fuel (skipWs r2) with
          | some (v, r3) =>
            match skipWs r3 with
            | ',' :: r4 =>
              match parseMembers fuel (skipWs r4) with
              | some (kvs, r5) => some ((k, v) :: kvs, r5)
              | none => none
            | '\x7d' :: r4 => some ([(k, v)], r4)
            | _ => none
          | none => none
        | _ => none
      | none => none
    | _ => none

/-- Parse an array after the opening bracket (whitespace already skipped). -/
def parseArrBody : Nat → List Char → Option (Json × List Char)
  | 0, _ => none
  | fuel + 1, l =>
    match l with
    | ']' :: r => some (Json.arr [], r)
    | _ =>
      match parseElems fuel l with
      | some (xs, r) => some (Json.arr xs, r)
      | none => none

/-- Parse the non-empty element list of an array, starting at a value. -/
def parseElems : Nat → List Char → Option (List Json × List Char)
  | 0, _ => none
  | fuel + 1, l =>
    match parseValue fuel l with
    | some (v, r0) =>
      match skipWs r0 with
      | ',' :: r1 =>
        match parseElems fuel (skipWs r1) with
        | some (xs, r2) => some (v :: xs, r2)
        | none => none
      | ']' :: r1 => some ([v], r1)
      | _ => none
    | none => none

end

/-- Models Python's `json.loads`: skip leading whitespace, parse one value,
require only whitespace after it.  `none` corresponds to `loads` raising
`json.JSONDecodeError`. -/
def json_loads (s : String) : Option Json :=
  match parseValue (3 * s.data.length + 3) (skipWs s.data) with
  | some (v, rest) => if skipWs rest = [] then some v else none
  | none => none

/-- Does the decimal literal of a parsed `Json.float` convert to a finite
IEEE-754 double?  Python's `float()` (used by `json.loads`) is correctly
rounded, so a literal maps to an infinity exactly when its magnitude is at
least `2^1024 - 2^970`: the midpoint above the largest finite double
`2^1024 - 2^971`, which ties-to-even rounds up to `2^1024`.  The constants
`NaN`/`Infinity`/`-Infinity` are not finite; tiny magnitudes underflow to
`0.0`, which is finite.  The comparison is exact integer arithmetic on the
literal's value `m * 10^k`. -/
def floatIsFinite (raw : List Char) : Bool :=
  let l := match raw with
    | '-' :: r => r
    | r => r
  match l with
  | 'N' :: _ => false
  | 'I' :: _ => false
  | _ =>
    let ip := takeDigits l
    let fp := match ip.2 with
      | '.' :: r => takeDigits r
      | r => (([] : List Char), r)
    let ex : Int := match fp.2 with
      | _etag :: r =>
        match r with
        | '+' :: rr => (natOfDigits (takeDigits rr).1 : Int)
        | '-' :: rr => -(natOfDigits (takeDigits rr).1 : Int)
        | rr => (natOfDigits (takeDigits rr).1 : Int)
      | [] => 0
    let m : Nat := natOfDigits (ip.1 ++ fp.1)
    let k : Int := ex - (fp.1.length : Int)
    if 0 ≤ k then m * 10 ^ k.toNat < 2 ^ 970 * (2 ^ 54 - 1)
    else m < 2 ^ 970 * (2 ^ 54 - 1) * 10 ^ (-k).toNat

mutual

/-- Fuel-indexed worker for `jsonRenderable`: does
`json.dumps(v, allow_nan=False)` succeed?  It raises `ValueError` exactly
when some float value in `v` is nan or an infinity.  The fuel only makes
the recursion over the nested `Json` tree structural; the fuel passed by
`jsonRenderable` always suffices, so the out-of-fuel arms are never hit. -/
def renderableFuel : Nat → Json → Bool
  | 0, _ => false
  | _ + 1, .null => true
  | _ + 1, .bool _ => true
  | _ + 1, .int _ => true
  | _ + 1, .str _ => true
  | _ + 1, .float raw => floatIsFinite raw
  | fuel + 1, .arr xs => renderableListFuel fuel xs
  | fuel + 1, .obj kvs => renderableKvsFuel fuel kvs

/-- `renderableFuel` over the elements of an array. -/
def renderableListFuel : Nat → List Json → Bool
  | 0, _ => false
  | _ + 1, [] => true
  | fuel + 1, v :: vs => renderableFuel fuel v && renderableListFuel fuel vs

/-- `renderableFuel` over the member values of an object. -/
def renderableKvsFuel : Nat → List (List Char × Json) → Bool
  | 0, _ => false
  | _ + 1, [] => true
  | fuel + 1, kv :: kvs => renderableFuel fuel kv.2 && renderableKvsFuel fuel kvs

end

/-- Models the success of Starlette's `JSONResponse.render`, which runs in
the `JSONResponse` constructor at src/main.py line 126, inside the `try`:
`json.dumps(content, allow_nan=False, ...)` raises `ValueError` when any
float value in the content is nan or an infinity (a plain `ValueError`, not
a `json.JSONDecodeError`, so it reaches the `except Exception` catch-all).
The subsequent `.encode("utf-8")` can also raise on lone surrogates from
`\uXXXX` escapes, which this model's strings cannot represent (see
`parseStrBody`), so that failure mode is outside the embedding.
`sourceLen` is the length of the text the value was parsed from: every
parsed node consumed at least one character, so `3 * sourceLen + 3` (the
same bound `json_loads` uses) bounds the recursion depth of
`renderableFuel` and the fuel never runs out. -/
def jsonRenderable (sourceLen : Nat) (v : Json) : Bool :=
  renderableFuel (3 * sourceLen + 3) v

/-- Exceptions that can escape the `try` block of `review_code_endpoint`:
`json.JSONDecodeError` from `json.loads`, a `fastapi.HTTPException` raised
inside the block (both are subclasses of `Exception`), or any other
exception carrying its message (file read / UTF-8 decode failure, a failure
inside `model.generate_content`, ...). -/
inductive PyExc where
  | jsonDecodeError
  | httpException (status : Nat) (detail : String)
  | other (msg : String)

/-- Models Python's `str(e)` for the exceptions that reach the
`except Exception as e` clause.  Starlette's `HTTPException.__str__`
returns `f"\x7bstatus_code\x7d: \x7bdetail\x7d"`.  (`json.JSONDecodeError`
never reaches that clause: the earlier `except json.JSONDecodeError`
clause matches it first.) -/
def excStr : PyExc → String
  | .httpException status detail => toString status ++ ": " ++ detail
  | .other msg => msg
  | .jsonDecodeError => ""

/-- An HTTP response of the endpoint: either a 200 `JSONResponse` whose
body is the parsed JSON, or a propagated `HTTPException` with its status
code and `detail` string. -/
inductive Resp where
  | ok (body : Json)
  | error (status : Nat) (detail : String)

/-- HTTP status code of a response (a `JSONResponse` defaults to 200). -/
def statusOf : Resp → Nat
  | .ok _ => 200
  | .error s _ => s

/-- The `try` block of `review_code_endpoint` (src/main.py lines 106-126).
`decoded` is the outcome of `(await file.read()).decode("utf-8")`: either
the decoded text or the message of the exception the read/decode raised.
`generate` is the external model client `model.generate_content` composed
with `.text`: for a given prompt it either returns the reply text or
raises (transport/service failure), again carried as a message.  The final
`return JSONResponse(content=review_data)` is itself fallible: the
constructor renders the body, and on a non-renderable value (out-of-range
float) raises the `ValueError` modelled here with CPython 3.11's message
(3.12+ appends the repr of the offending float; no theorem depends on the
text). -/
def tryBody (decoded : Except String String) (filename : String)
    (generate : String → Except String String) : Except PyExc Json :=
  match decoded with
  | .error msg => .error (.other msg)
  | .ok code_content =>
    if pyStrip code_content = "" then
      .error (.httpException 400 "The uploaded file is empty.")
    else
      match generate (create_review_prompt code_content filename) with
      | .error msg => .error (.other msg)
      | .ok text =>
        match json_loads (clean_response text) with
        | none => .error .jsonDecodeError
        | some review_data =>
          if jsonRenderable (clean_response text).length review_data then
            .ok review_data
          else
            .error (.other "Out of range float values are not JSON compliant")

/-- Embedding of `review_code_endpoint` (src/main.py lines 92-137).
`modelConfigured` is the truthiness of the module-level `model` (None when
the `GEMINI_API_KEY` credential was absent or empty at startup).  The 503
is raised outside the `try` block and propagates as-is; every exception
escaping the `try` block is dispatched to the first matching `except`
clause in source order: `json.JSONDecodeError` first, then the
`except Exception` catch-all — which also catches the `HTTPException(400)`
raised for empty input, re-raising it as a 500. -/
def review_code_endpoint (modelConfigured : Bool)
    (decoded : Except String String) (filename : String)
    (generate : String → Except String String) : Resp :=
  if !modelConfigured then
    .error 503 "LLM service is not configured. The server is missing the GEMINI_API_KEY."
  else
    match tryBody decoded filename generate with
    | .ok review_data => .ok review_data
    | .error .jsonDecodeError =>
      .error 500 "Failed to parse the AI model's response. The model returned an invalid format."
    | .error e => .error 500 ("An unexpected error occurred: " ++ excStr e)

set_option maxRecDepth 100000


lemma mkData (l : List Char) : (String.mk l).data = l := rfl

lemma strData_append (a b : String) : (a ++ b).data = a.data ++ b.data := by
  rw [String.congr_append]

lemma isPrefixOf_self (l : List Char) : l.isPrefixOf l = true := by
  induction l with
  | nil => rfl
  | cons c cs ih => simp [List.isPrefixOf, ih]

lemma isPrefixOf_append_ext (n m b : List Char) (h : n.isPrefixOf m = true) :
    n.isPrefixOf (m ++ b) = true := by
  induction n generalizing m with
  | nil => simp [List.isPrefixOf]
  | cons x xs ih =>
    cases m with
    | nil => simp [List.isPrefixOf] at h
    | cons y ys =>
      simp only [List.isPrefixOf, Bool.and_eq_true] at h
      simp only [List.cons_append, List.isPrefixOf, Bool.and_eq_true]
      exact ⟨h.1, ih ys h.2⟩

lemma containsB_nil (l : List Char) : containsB [] l = true := by
  cases l <;> simp [containsB, List.isPrefixOf]

lemma containsB_append_r (pat m b : List Char) (h : containsB pat m = true) :
    containsB pat (m ++ b) = true := by
  induction m with
  | nil =>
    have hp : pat = [] := by
      cases pat with
      | nil => rfl
      | cons c cs => simp [containsB] at h
    subst hp; exact containsB_nil b
  | cons c cs ih =>
    simp only [containsB, Bool.or_eq_true] at h ⊢
    rcases h with h | h
    · exact Or.inl (isPrefixOf_append_ext _ _ _ h)
    · exact Or.inr (ih h)

lemma containsB_append_l (pat a m : List Char) (h : containsB pat m = true) :
    containsB pat (a ++ m) = true := by
  induction a with
  | nil => simpa using h
  | cons x xs ih =>
    simp only [List.cons_append, containsB, Bool.or_eq_true]
    exact Or.inr ih

lemma containsB_self (l : List Char) : containsB l l = true := by
  cases l with
  | nil => rfl
  | cons c cs => simp [containsB, isPrefixOf_self]

lemma dropWhile_idem (p : Char → Bool) (l : List Char) :
    (l.dropWhile p).dropWhile p = l.dropWhile p := by
  induction l with
  | nil => rfl
  | cons c cs ih =>
    by_cases h : p c = true
    · simp [List.dropWhile_cons, h, ih]
    · simp [List.dropWhile_cons, h]

lemma head_dropWhile_false (p : Char → Bool) (l : List Char) (c : Char) (cs : List Char)
    (h : l.dropWhile p = c :: cs) : p c = false := by
  induction l with
  | nil => simp at h
  | cons x xs ih =>
    by_cases hx : p x = true
    · rw [List.dropWhile_cons, if_pos hx] at h
      exact ih h
    · rw [List.dropWhile_cons, if_neg hx] at h
      injection h with h1 h2
      subst h1
      simpa using hx

lemma lstrip_decomp (l : List Char) : ∃ a, l = a ++ lstripL l :=
  ⟨l.takeWhile isPySpace, (List.takeWhile_append_dropWhile isPySpace l).symm⟩

lemma rstrip_decomp (l : List Char) : ∃ b, l = rstripL l ++ b := by
  refine ⟨(l.reverse.takeWhile isPySpace).reverse, ?_⟩
  show l = (l.reverse.dropWhile isPySpace).reverse ++ (l.reverse.takeWhile isPySpace).reverse
  rw [← List.reverse_append, List.takeWhile_append_dropWhile, List.reverse_reverse]

lemma strip_decomp (l : List Char) : ∃ a b, l = a ++ (stripL l ++ b) := by
  obtain ⟨a, ha⟩ := lstrip_decomp l
  obtain ⟨b, hb⟩ := rstrip_decomp (lstripL l)
  refine ⟨a, b, ?_⟩
  show l = a ++ (rstripL (lstripL l) ++ b)
  rw [← hb]
  exact ha

lemma lstrip_of_strip (l : List Char) : lstripL (stripL l) = stripL l := by
  obtain ⟨b, hb⟩ := rstrip_decomp (lstripL l)
  cases hr : rstripL (lstripL l) with
  | nil =>
    show lstripL (rstripL (lstripL l)) = rstripL (lstripL l)
    rw [hr]; rfl
  | cons c cs =>
    have hc : isPySpace c = false := by
      apply head_dropWhile_false isPySpace l c (cs ++ b)
      rw [hr] at hb
      simpa using hb
    show lstripL (rstripL (lstripL l)) = rstripL (lstripL l)
    rw [hr]
    simp [lstripL, List.dropWhile_cons, hc]

lemma rstrip_idem (l : List Char) : rstripL (rstripL l) = rstripL l := by
  unfold rstripL
  rw [List.reverse_reverse, dropWhile_idem]

lemma strip_idem (l : List Char) : stripL (stripL l) = stripL l := by
  show rstripL (lstripL (stripL l)) = stripL l
  rw [lstrip_of_strip]
  show rstripL (rstripL (lstripL l)) = rstripL (lstripL l)
  rw [rstrip_idem]

lemma replaceFuel_no_occ (pat rep : List Char) (fuel : Nat) (l : List Char)
    (h : containsB pat l = false) : replaceFuel pat rep fuel l = l := by
  induction fuel generalizing l with
  | zero => cases l <;> rfl
  | succ f ih =>
    cases l with
    | nil => rfl
    | cons c cs =>
      simp only [containsB, Bool.or_eq_false_iff] at h
      simp [replaceFuel, h.1, ih cs h.2]

lemma containsB_strip_false (pat x : List Char)
    (h : containsB pat x = false) : containsB pat (stripL x) = false := by
  cases hc : containsB pat (stripL x) with
  | false => rfl
  | true =>
    obtain ⟨a, b, hab⟩ := strip_decomp x
    have ht : containsB pat x = true := by
      rw [hab]
      exact containsB_append_l _ _ _ (containsB_append_r _ _ _ hc)
    rw [h] at ht
    exact absurd ht (by decide)


/-- C1 divergence: with the model configured, uploading a file whose content
decodes to whitespace only makes the handler respond HTTP 500 (the
`except Exception` catch-all intercepts the deliberately raised
`HTTPException(400)` and re-raises it as a 500), not the HTTP 400
BadRequest the claim states; only the detail text still mentions the
empty file. -/
theorem empty_upload_actual_response :
    review_code_endpoint true (.ok " \n\t ") "example.py" (fun _ => .ok "\x7b\x7d") =
      .error 500 "An unexpected error occurred: 400: The uploaded file is empty." ∧
    statusOf (review_code_endpoint true (.ok " \n\t ") "example.py" (fun _ => .ok "\x7b\x7d")) ≠ 400 :=
  ⟨rfl, by decide⟩

/-- C2: with the model configured, every response of the handler has status
200 or 500; in particular the `HTTPException(400)` raised for empty input is
caught by the `except Exception` catch-all and re-raised as a 500 whose
detail is "An unexpected error occurred: " followed by `str(e)`. -/
theorem configured_status_200_or_500 (d : Except String String) (fn : String)
    (g : String → Except String String) :
    (statusOf (review_code_endpoint true d fn g) = 200 ∨
      statusOf (review_code_endpoint true d fn g) = 500) ∧
    (∀ code : String, pyStrip code = "" →
      review_code_endpoint true (.ok code) fn g =
        .error 500 "An unexpected error occurred: 400: The uploaded file is empty.") := by
  constructor
  · cases htb : tryBody d fn g with
    | ok v => simp [review_code_endpoint, htb, statusOf]
    | error e =>
      cases e <;> simp [review_code_endpoint, htb, statusOf]
  · intro code hcode
    simp [review_code_endpoint, tryBody, hcode, excStr]
    rfl

/-- Witness for C2 at a concrete input. -/
theorem configured_status_200_or_500_witness :
    (statusOf (review_code_endpoint true (.ok " ") "f.py" (fun _ => .ok "\x7b\x7d")) = 200 ∨
      statusOf (review_code_endpoint true (.ok " ") "f.py" (fun _ => .ok "\x7b\x7d")) = 500) ∧
    review_code_endpoint true (.ok " ") "f.py" (fun _ => .ok "\x7b\x7d") =
      .error 500 "An unexpected error occurred: 400: The uploaded file is empty." :=
  ⟨(configured_status_200_or_500 (.ok " ") "f.py" (fun _ => .ok "\x7b\x7d")).1,
    (configured_status_200_or_500 (.ok " ") "f.py" (fun _ => .ok "\x7b\x7d")).2 " " (by decide)⟩

/-- C3: when the model client was never initialized (`model` is None), the
handler fails with the 503 ServiceUnavailable response whatever the upload,
the filename or the model service would do: the read/decode outcome `d` and
the model behavior `g` are universally quantified, so the response depends
on neither — no read, decode or model call can influence it. -/
theorem unconfigured_503 (d : Except String String) (fn : String)
    (g : String → Except String String) :
    review_code_endpoint false d fn g =
      .error 503 "LLM service is not configured. The server is missing the GEMINI_API_KEY." :=
  rfl

/-- C4: when the model reply's cleaned text fails to parse as JSON, the
handler fails with the distinct parse-failure message of the
`except json.JSONDecodeError` branch, not with the generic catch-all
message. -/
theorem parse_failure_distinct_error (code fn reply : String)
    (g : String → Except String String)
    (hne : pyStrip code ≠ "")
    (hg : g (create_review_prompt code fn) = .ok reply)
    (hp : json_loads (clean_response reply) = none) :
    review_code_endpoint true (.ok code) fn g =
      .error 500 "Failed to parse the AI model's response. The model returned an invalid format." := by
  simp [review_code_endpoint, tryBody, hne, hg, hp]

/-- Witness for C4 at a concrete non-JSON model reply. -/
theorem parse_failure_distinct_error_witness :
    pyStrip "x" ≠ "" ∧
    review_code_endpoint true (.ok "x") "f.py" (fun _ => .ok "I cannot review this.") =
      .error 500 "Failed to parse the AI model's response. The model returned an invalid format." :=
  ⟨by decide,
    parse_failure_distinct_error "x" "f.py" "I cannot review this."
      (fun _ => .ok "I cannot review this.") (by decide) rfl rfl⟩

/-- C5: with the model configured, when the decoded content is empty after
stripping, the handler's response is independent of the model service's
behavior — the emptiness failure occurs strictly before the model call, so
the model is never invoked. -/
theorem empty_input_no_model_call (code fn : String)
    (g1 g2 : String → Except String String)
    (h : pyStrip code = "") :
    review_code_endpoint true (.ok code) fn g1 =
      review_code_endpoint true (.ok code) fn g2 := by
  simp [review_code_endpoint, tryBody, h]

/-- Witness for C5 at a whitespace-only upload and two model services that
disagree on every prompt. -/
theorem empty_input_no_model_call_witness :
    pyStrip " \n " = "" ∧
    review_code_endpoint true (.ok " \n ") "f.py" (fun _ => .ok "\x7b\x7d") =
      review_code_endpoint true (.ok " \n ") "f.py" (fun _ => .error "transport down") :=
  ⟨by decide,
    empty_input_no_model_call " \n " "f.py" (fun _ => .ok "\x7b\x7d")
      (fun _ => .error "transport down") (by decide)⟩

/-- C6 counterexample: the model reply `1e999` cleans to itself and its
cleaned text parses as valid JSON (a grammar-valid float literal), yet the
handler does not return HTTP 200 with the parsed value: the `JSONResponse`
render inside the `try` raises on the out-of-range float and the
`except Exception` catch-all turns it into a 500. -/
theorem overflow_float_not_returned :
    json_loads (clean_response "1e999") = some (Json.float "1e999".data) ∧
    statusOf (review_code_endpoint true (.ok "x") "f.py" (fun _ => .ok "1e999")) = 500 := by
  exact ⟨rfl, rfl⟩

/-- C6 (amended): when the model reply's cleaned text parses as JSON to a
value that `json.dumps(..., allow_nan=False)` can serialize (no nan or
infinite float values), the handler returns HTTP 200 with exactly the
parsed value as the body; the parsed value `v` is otherwise arbitrary — no
five-criterion schema validation happens. -/
theorem valid_json_returned_verbatim (code fn reply : String) (v : Json)
    (g : String → Except String String)
    (hne : pyStrip code ≠ "")
    (hg : g (create_review_prompt code fn) = .ok reply)
    (hp : json_loads (clean_response reply) = some v)
    (hr : jsonRenderable (clean_response reply).length v = true) :
    review_code_endpoint true (.ok code) fn g = .ok v := by
  simp [review_code_endpoint, tryBody, hne, hg, hp, hr]

/-- Witness for C6: a JSON array — nowhere near the five-criterion object
shape — is returned verbatim with status 200. -/
theorem valid_json_returned_verbatim_witness :
    pyStrip "x" ≠ "" ∧
    jsonRenderable (clean_response "[1,true]").length
      (Json.arr [Json.int 1, Json.bool true]) = true ∧
    review_code_endpoint true (.ok "x") "f.py" (fun _ => .ok "[1,true]") =
      .ok (Json.arr [Json.int 1, Json.bool true]) :=
  ⟨by decide, rfl,
    valid_json_returned_verbatim "x" "f.py" "[1,true]" (Json.arr [Json.int 1, Json.bool true])
      (fun _ => .ok "[1,true]") (by decide) rfl rfl rfl⟩

/-- C7: a model reply that is itself valid JSON — a string value containing
the three-backtick fence — is corrupted by the cleaning step: the handler
returns a structure different from the JSON parse of the raw reply, because
`.replace("```json", "")` deletes the fence literal inside the JSON string
value before parsing. -/
theorem cleaning_corrupts_valid_reply :
    json_loads "\x7b\"comment\": \"a```jsonb\"\x7d" =
      some (Json.obj [("comment".data, Json.str "a```jsonb".data)]) ∧
    review_code_endpoint true (.ok "x") "f.py"
        (fun _ => .ok "\x7b\"comment\": \"a```jsonb\"\x7d") =
      .ok (Json.obj [("comment".data, Json.str "ab".data)]) ∧
    Json.obj [("comment".data, Json.str "ab".data)] ≠
      Json.obj [("comment".data, Json.str "a```jsonb".data)] := by
  refine ⟨rfl, rfl, ?_⟩
  intro h
  have h2 := congrArg
    (fun j => match j with | Json.obj ((_, Json.str s) :: _) => s.length | _ => 0) h
  exact absurd h2 (by decide)

/-- C8: `create_review_prompt` is a pure total function of its two
arguments: equal inputs give the identical string, with no dependence on
anything else. -/
theorem create_review_prompt_deterministic (c1 f1 c2 f2 : String)
    (hc : c1 = c2) (hf : f1 = f2) :
    create_review_prompt c1 f1 = create_review_prompt c2 f2 := by
  rw [hc, hf]

/-- Witness for C8, at empty code. -/
theorem create_review_prompt_deterministic_witness :
    create_review_prompt "" "m.py" = create_review_prompt "" "m.py" :=
  create_review_prompt_deterministic "" "m.py" "" "m.py" rfl rfl

/-- C9: for every code and filename, the produced prompt contains the
literal filename and the literal code as contiguous substrings, and
contains all five criterion names. -/
theorem prompt_contains_inputs_and_criteria (code fn : String) :
    containsB fn.data (create_review_prompt code fn).data = true ∧
    containsB code.data (create_review_prompt code fn).data = true ∧
    containsB "Readability".data (create_review_prompt code fn).data = true ∧
    containsB "Modularity_Structure".data (create_review_prompt code fn).data = true ∧
    containsB "Potential_Bugs".data (create_review_prompt code fn).data = true ∧
    containsB "Best_Practices".data (create_review_prompt code fn).data = true ∧
    containsB "Security".data (create_review_prompt code fn).data = true := by
  have hd : (create_review_prompt code fn).data =
      promptPre.data ++ (fn.data ++ (promptMid.data ++ (code.data ++ promptSuf.data))) := by
    simp [create_review_prompt, strData_append]
  rw [hd]
  refine ⟨?_, ?_, ?_, ?_, ?_, ?_, ?_⟩
  · exact containsB_append_l _ _ _ (containsB_append_r _ _ _ (containsB_self _))
  · exact containsB_append_l _ _ _ (containsB_append_l _ _ _
      (containsB_append_l _ _ _ (containsB_append_r _ _ _ (containsB_self _))))
  · exact containsB_append_l _ _ _ (containsB_append_l _ _ _
      (containsB_append_r _ _ _ (by decide)))
  · exact containsB_append_l _ _ _ (containsB_append_l _ _ _
      (containsB_append_r _ _ _ (by decide)))
  · exact containsB_append_l _ _ _ (containsB_append_l _ _ _
      (containsB_append_r _ _ _ (by decide)))
  · exact containsB_append_l _ _ _ (containsB_append_l _ _ _
      (containsB_append_r _ _ _ (by decide)))
  · exact containsB_append_l _ _ _ (containsB_append_l _ _ _
      (containsB_append_r _ _ _ (by decide)))

/-- C10: the cleaning step is the identity modulo surrounding whitespace on
any reply free of the two fence literals, and on the fully fenced example
it yields the inner JSON text. -/
theorem clean_identity_without_fences :
    (∀ s : String, containsB "```json".data s.data = false →
      containsB "```".data s.data = false →
      clean_response s = pyStrip s) ∧
    clean_response "```json\x7b\"a\":1\x7d```" = "\x7b\"a\":1\x7d" := by
  constructor
  · intro s h1 h2
    have h1' := containsB_strip_false _ _ h1
    have h2' := containsB_strip_false _ _ h2
    show pyStrip (pyReplace (pyReplace (pyStrip s) "```json" "") "```" "") = pyStrip s
    simp only [pyStrip, pyReplace, replaceL, mkData]
    rw [replaceFuel_no_occ _ _ _ _ h1']
    rw [replaceFuel_no_occ _ _ _ _ h2']
    rw [strip_idem]
  · rfl

/-- Witness for C10 on a fence-free reply. -/
theorem clean_identity_without_fences_witness :
    containsB "```json".data "hello".data = false ∧
    containsB "```".data "hello".data = false ∧
    clean_response "hello" = pyStrip "hello" :=
  ⟨by decide, by decide, clean_identity_without_fences.1 "hello" (by decide) (by decide)⟩

end CodeReview
